import Mathlib

/-!
Verification development for the blue_session_analyzor_extension repository.

The extension coordinates a session state machine across a popup, a
background service worker, an offscreen document and a report page,
sharing state only through `chrome.storage.local`.  Below we give a
shallow embedding of the storage-visible behaviour of the relevant
JavaScript functions (`service_worker.js`, `config.js` popup logic,
`report.js`) and prove properties about them.

Conventions of the embedding:
* `chrome.storage.local` is a `Store` record holding the `sessions`
  collection, the `activeSessionId` pointer, the lazily-created
  `userProfile` and the audio-blob entries (an association list keyed by
  the string key the code uses).
* JavaScript `null`/`undefined` string values are `Option String`;
  JS truthiness of a string (`if (s)`) is `isT`, and `a || b` is
  `jsOr`/`jsOrS` (the empty string is falsy).
* Network effects (the analyze POST and the per-session audio GET) are
  passed in as explicit environment values describing the outcome the
  network produced, so the handlers stay pure functions of store and
  environment.
* `has_audio` of the source is called `has_audio_flag` here (a purely
  lexical renaming).
-/

namespace BlueSessionAnalyzor

/-- JS truthiness of a nullable string: `null`/`undefined` and `""` are falsy. -/
def isT : Option String → Bool
  | some s => decide (s ≠ "")
  | none => false

/-- JS `a || b` for two strings (empty string falls through). -/
def jsOrS (a b : String) : String :=
  if a = "" then b else a

/-- JS `a || b` where `a` is a nullable string. -/
def jsOr (a : Option String) (b : String) : String :=
  match a with
  | some s => jsOrS s b
  | none => b

/-- The audio-blob portion of `chrome.storage.local`: key/value pairs. -/
abbrev Blobs := List (String × String)

/-- `chrome.storage.local.set({[k]: v})` on the blob area: overwrite or insert. -/
def storageSet : Blobs → String → String → Blobs
  | [], k, v => [(k, v)]
  | (k', v') :: rest, k, v =>
    if k' = k then (k, v) :: rest else (k', v') :: storageSet rest k v

/-- `chrome.storage.local.get(k)` on the blob area. -/
def storageGet : Blobs → String → Option String
  | [], _ => none
  | (k', v') :: rest, k => if k' = k then some v' else storageGet rest k

/-- `chrome.storage.local.remove(k)` on the blob area. -/
def storageRemove : Blobs → String → Blobs
  | [], _ => []
  | (k', v') :: rest, k =>
    if k' = k then storageRemove rest k else (k', v') :: storageRemove rest k

/-- The storage key of a session's audio blob:
`AUDIO_STORAGE_PREFIX + sessionId` with the constant `"sessionAudio_"`. -/
def audioKeyOf (sessionId : String) : String :=
  "sessionAudio_" ++ sessionId

/-- `persistSessionAudioBlob(sessionId, audioBase64)` (service_worker.js):
skips falsy ids or payloads, otherwise writes the blob entry. -/
def persistSessionAudioBlob (blobs : Blobs) (sessionId audioBase64 : String) : Blobs :=
  if sessionId = "" ∨ audioBase64 = "" then blobs
  else storageSet blobs (audioKeyOf sessionId) audioBase64

/-- `clearSessionAudioBlob(sessionId)` (service_worker.js). -/
def clearSessionAudioBlob (blobs : Blobs) (sessionId : String) : Blobs :=
  if sessionId = "" then blobs
  else storageRemove blobs (audioKeyOf sessionId)

/-- `loadSessionAudioBlob(sessionId)` (service_worker.js):
`stored[key] || null` makes a stored empty string come back as `null`. -/
def loadSessionAudioBlob (blobs : Blobs) (sessionId : String) : Option String :=
  if sessionId = "" then none
  else
    match storageGet blobs (audioKeyOf sessionId) with
    | some s => if s = "" then none else some s
    | none => none

/-- A `Session` record as created by `newSessionMeta` and mutated through
`updateSession` / `patchSession`.  `has_audio_flag` embeds the source's
`has_audio` field. -/
structure Session where
  id : String
  title : String
  created_at : String
  status : String
  session_report : Option String
  audio_base64 : Option String
  user_id : String
  user_name : String
  has_audio_flag : Bool
  audio_mime_type : String
deriving Repr, DecidableEq

/-- A patch object passed to `updateSession`/`patchSession`.  An outer
`none` means the field is absent (`undefined`); for the nullable fields
`session_report` and `audio_base64` the inner option is the JS value
(`none` = `null`). -/
structure SessionPatch where
  status : Option String
  title : Option String
  session_report : Option (Option String)
  audio_base64 : Option (Option String)
  has_audio_flag : Option Bool
  audio_mime_type : Option String
deriving Repr, DecidableEq

/-- The empty patch `{}`. -/
def emptyPatch : SessionPatch :=
  { status := none, title := none, session_report := none,
    audio_base64 := none, has_audio_flag := none, audio_mime_type := none }

/-- The record-level effect of `updateSession` (service_worker.js) on the
matched session: the `audio_base64` field of the patch is split off and
only toggles `has_audio`, then the remaining fields are spread over the
record.  The session's own inline `audio_base64` field is left untouched
by this version. -/
def applyPatch (s : Session) (p : SessionPatch) : Session :=
  let s1 :=
    match p.audio_base64 with
    | none => s
    | some v => { s with has_audio_flag := isT v }
  { s1 with
    status := Option.getD p.status s1.status,
    title := Option.getD p.title s1.title,
    session_report := Option.getD p.session_report s1.session_report,
    has_audio_flag := Option.getD p.has_audio_flag s1.has_audio_flag,
    audio_mime_type := Option.getD p.audio_mime_type s1.audio_mime_type }

/-- The blob-cache effect of `updateSession` (service_worker.js): a truthy
`audio_base64` in the patch is persisted, a falsy-but-present one clears
the blob entry. -/
def patchBlobs (blobs : Blobs) (sid : String) (p : SessionPatch) : Blobs :=
  match p.audio_base64 with
  | none => blobs
  | some v =>
    if isT v then persistSessionAudioBlob blobs sid (Option.getD v "")
    else clearSessionAudioBlob blobs sid

/-- `UserProfile` as stored under the `userProfile` key. -/
structure UserProfile where
  id : String
  name : String
deriving Repr, DecidableEq

/-- The whole of `chrome.storage.local` as used by the extension. -/
structure Store where
  sessions : List Session
  activeSessionId : Option String
  userProfile : Option UserProfile
  audioBlobs : Blobs
deriving Repr, DecidableEq

/-- `sessions.find(s => s.id === sessionId)`. -/
def findSession : List Session → String → Option Session
  | [], _ => none
  | s :: rest, sid => if s.id = sid then some s else findSession rest sid

/-- Replace the first session whose id matches (the `findIndex` +
assignment pattern of `updateSession`/`patchSession`). -/
def updateSessionList (f : Session → Session) (sid : String) : List Session → List Session
  | [] => []
  | s :: rest => if s.id = sid then f s :: rest else s :: updateSessionList f sid rest

/-- `updateSession(id, patch)` (service_worker.js): a no-op when the id is
unknown, otherwise patches the matched record and the blob cache. -/
def updateSession (st : Store) (sid : String) (p : SessionPatch) : Store :=
  match findSession st.sessions sid with
  | none => st
  | some _ =>
    { st with
      sessions := updateSessionList (fun s => applyPatch s p) sid st.sessions,
      audioBlobs := patchBlobs st.audioBlobs sid p }

/-- `getUserProfile()` (service_worker.js): reuse a stored profile with
truthy id and name, otherwise create one from fresh values and store it. -/
def getUserProfile (st : Store) (freshId freshName : String) : Store × UserProfile :=
  match st.userProfile with
  | some p =>
    if p.id ≠ "" ∧ p.name ≠ "" then (st, p)
    else
      ({ st with userProfile := some { id := freshId, name := freshName } },
       { id := freshId, name := freshName })
  | none =>
    ({ st with userProfile := some { id := freshId, name := freshName } },
     { id := freshId, name := freshName })

/-- `newSessionMeta(profile)` (service_worker.js). -/
def newSessionMeta (profile : UserProfile) (freshSessionId createdAt : String) : Session :=
  { id := freshSessionId,
    title := "Session",
    created_at := createdAt,
    status := "recording",
    session_report := none,
    audio_base64 := none,
    user_id := profile.id,
    user_name := profile.name,
    has_audio_flag := false,
    audio_mime_type := "audio/webm" }

/-- The JSON body answered by `GET /session_audio/{user}/{session}`. -/
structure RemoteAudioData where
  audio_base64 : Option String
  mime_type : Option String
deriving Repr, DecidableEq

/-- Outcome of the bounded-time audio fetch: a parsed success body, a
non-success HTTP response, or a thrown network error / timeout. -/
inductive FetchAudioResult where
  | ok (data : RemoteAudioData)
  | notOk
  | netError
deriving Repr, DecidableEq

/-- `fetchSessionAudioFromBackend(userId, sessionId)` (service_worker.js):
falsy ids short-circuit to `null`; a non-ok response or a thrown
error/timeout also yields `null`. -/
def fetchSessionAudioFromBackend (userId sessionId : String)
    (env : FetchAudioResult) : Option RemoteAudioData :=
  if userId = "" ∨ sessionId = "" then none
  else
    match env with
    | .ok d => some d
    | .notOk => none
    | .netError => none

/-- `ensureAudioForSession({session, providedAudio, mimeType})`
(service_worker.js).  Returns the possibly-updated store, the resolved
base64 payload (`none` for the JS `null`) and the resolved mime type. -/
def ensureAudioForSession (st : Store) (session : Session)
    (providedAudioB64 : Option String) (mimeType : Option String)
    (env : FetchAudioResult) : Store × Option String × String :=
  if isT providedAudioB64 then
    (st, providedAudioB64, jsOr mimeType (jsOrS session.audio_mime_type "audio/webm"))
  else
    match loadSessionAudioBlob st.audioBlobs session.id with
    | some cached => (st, some cached, jsOrS session.audio_mime_type "audio/webm")
    | none =>
      match fetchSessionAudioFromBackend session.user_id session.id env with
      | some d =>
        if isT d.audio_base64 then
          let blobs :=
            persistSessionAudioBlob st.audioBlobs session.id (Option.getD d.audio_base64 "")
          let st1 :=
            updateSession { st with audioBlobs := blobs } session.id
              { emptyPatch with
                has_audio_flag := some true,
                audio_mime_type := some (jsOr d.mime_type "audio/webm") }
          (st1, d.audio_base64, jsOr d.mime_type "audio/webm")
        else
          (st, none, jsOr mimeType (jsOrS session.audio_mime_type "audio/webm"))
      | none => (st, none, jsOr mimeType (jsOrS session.audio_mime_type "audio/webm"))

/-- Parsed body of the analyze endpoint's response (all fields may be
absent; a JSON parse failure is the all-`none` value). -/
structure BackendData where
  title : Option String
  session_report : Option String
  status : Option String
  error : Option String
deriving Repr, DecidableEq

/-- Outcome of the analyze POST: an HTTP response (with `response.ok`,
the status code and parsed body) or a thrown network error / timeout,
carrying `error.message`. -/
inductive AnalysisOutcome where
  | httpResponse (respOk : Bool) (statusCode : Nat) (data : BackendData)
  | netFailure (message : String)
deriving Repr, DecidableEq

/-- `requestBackendAnalysis(...)` (service_worker.js): a non-ok response
throws `data?.error || "HTTP " + status`; a network failure propagates;
otherwise the parsed body is returned. -/
def requestBackendAnalysis (outcome : AnalysisOutcome) : Except String BackendData :=
  match outcome with
  | .netFailure msg => .error msg
  | .httpResponse respOk statusCode data =>
    if respOk then .ok data
    else .error (jsOr data.error ("HTTP " ++ toString statusCode))

/-- Payload of a `PROCESS_SESSION_AUDIO` message (the duration hint is
only forwarded to the network call and does not touch the store, so it
is omitted). -/
structure JobPayload where
  sessionId : String
  audioBase64 : Option String
  mimeType : Option String
deriving Repr, DecidableEq

/-- `error?.message || error` applied to a thrown `Error`: an empty
message falls back to the stringified error object. -/
def jsErrorText (msg : String) : String :=
  jsOrS msg "Error"

/-- `processSessionAudioJob(payload)` (service_worker.js).  `canUseOffscreen`
mirrors `Boolean(chrome?.offscreen?.hasDocument)`; `dispatchRes` is the
outcome of `dispatchOffscreenAnalysis` and `analysis` the outcome of the
direct `requestBackendAnalysis` call used when no offscreen document is
available.  Tab-opening and the auto-open dedup set are in-memory UI
side effects and do not touch the store. -/
def processSessionAudioJob (st : Store) (p : JobPayload) (env : FetchAudioResult)
    (canUseOffscreen : Bool) (dispatchRes : Except String Unit)
    (analysis : AnalysisOutcome) : Store :=
  match findSession st.sessions p.sessionId with
  | none => st
  | some session =>
    let r := ensureAudioForSession st session p.audioBase64 p.mimeType env
    let readyAudioB64 := r.2.1
    let resolvedMime := r.2.2
    if isT readyAudioB64 then
      let st2 :=
        updateSession r.1 p.sessionId
          { emptyPatch with
            status := some "processing",
            audio_base64 := some readyAudioB64,
            audio_mime_type := some resolvedMime }
      if canUseOffscreen then
        match dispatchRes with
        | .ok _ => st2
        | .error msg =>
          updateSession st2 p.sessionId
            { emptyPatch with
              status := some "failed",
              session_report := some (some ("خطا در آغاز تحلیل: " ++ jsErrorText msg)) }
      else
        match requestBackendAnalysis analysis with
        | .error msg =>
          updateSession st2 p.sessionId
            { emptyPatch with
              status := some "failed",
              session_report := some (some ("خطا در تحلیل جلسه: " ++ jsErrorText msg)) }
        | .ok data =>
          let isError := decide (data.status = some "error")
          updateSession st2 p.sessionId
            { emptyPatch with
              status := some (if isError then "failed" else "done"),
              title := some (jsOr data.title (jsOrS session.title "Session Report")),
              session_report :=
                some (some (jsOr data.session_report
                  (jsOr data.error (if isError then "مدل خروجی معتبر ارسال نکرد." else "")))) }
    else
      updateSession r.1 p.sessionId
        { emptyPatch with
          status := some "failed",
          session_report := some (some "فایل صوتی برای تحلیل موجود نیست.") }

/-- A handler's `sendResponse` value. -/
inductive Resp where
  | ok (sessionId : Option String)
  | err (error : String)
deriving Repr, DecidableEq

/-- Payload of a `SESSION_REPORT_READY` message. -/
structure ReportReadyPayload where
  sessionId : String
  title : Option String
  sessionReport : Option String
  status : Option String
  audioBase64 : Option (Option String)
  hasAudio : Option Bool
deriving Repr, DecidableEq

/-- The `OFFSCREEN_ANALYSIS_COMPLETE` branch of the service worker's
message listener. -/
def offscreenCompleteHandler (st : Store) (sid : String)
    (result : Option BackendData) (resultError : Option String) : Store × Resp :=
  if sid = "" then (st, .err "Missing sessionId.")
  else if isT resultError then
    (updateSession st sid
      { emptyPatch with
        status := some "failed",
        session_report :=
          some (some ("خطا در تحلیل جلسه: " ++ Option.getD resultError "")) },
     .ok none)
  else
    let isError := decide (Option.bind result BackendData.status = some "error")
    (updateSession st sid
      { emptyPatch with
        status := some (if isError then "failed" else "done"),
        title := some (jsOr (Option.bind result BackendData.title) "Session Report"),
        session_report :=
          some (some (jsOr (Option.bind result BackendData.session_report)
            (jsOr (Option.bind result BackendData.error)
              (if isError then "مدل خروجی معتبر ارسال نکرد." else "")))) },
     .ok none)

/-- The patch object built by the `SESSION_REPORT_READY` branch: status is
resolved from the payload's `status`, `title`/`session_report` get
defaults, `has_audio` is taken from the payload when boolean, and a
present `audioBase64` is forwarded (deriving `has_audio` from its
truthiness when the payload carried no boolean). -/
def reportReadyPatch (p : ReportReadyPayload) : SessionPatch :=
  let resolvedStatus := if p.status = some "error" then "failed" else "done"
  let base :=
    { emptyPatch with
      status := some resolvedStatus,
      title := some (jsOr p.title "Session Report"),
      session_report := some (some (jsOr p.sessionReport "")) }
  let withHas :=
    match p.hasAudio with
    | some b => { base with has_audio_flag := some b }
    | none => base
  match p.audioBase64 with
  | some v =>
    let p1 := { withHas with audio_base64 := some v }
    match p.hasAudio with
    | some _ => p1
    | none => { p1 with has_audio_flag := some (isT v) }
  | none => withHas

/-- The `SESSION_REPORT_READY` branch of the service worker's message
listener. -/
def reportReadyHandler (st : Store) (p : ReportReadyPayload) : Store × Resp :=
  if p.sessionId = "" then (st, .err "Missing sessionId.")
  else (updateSession st p.sessionId (reportReadyPatch p), .ok none)

/-- One command arriving at the service worker's `onMessage` listener,
together with the environment outcomes its processing consumes. -/
inductive Cmd where
  | start (freshProfileId freshProfileName freshSessionId createdAt : String)
  | stop
  | processAudioMsg (p : JobPayload) (env : FetchAudioResult) (canUseOffscreen : Bool)
      (dispatchRes : Except String Unit) (analysis : AnalysisOutcome)
  | offscreenComplete (sessionId : String) (result : Option BackendData)
      (resultError : Option String)
  | reportReady (p : ReportReadyPayload)

/-- The service worker's `onMessage` dispatch: store-visible effect plus
response of each command.  Badge updates and tab opening are UI-only. -/
def step (st : Store) (c : Cmd) : Store × Resp :=
  match c with
  | .start pid pname sid createdAt =>
    let pr := getUserProfile st pid pname
    let session := newSessionMeta pr.2 sid createdAt
    ({ pr.1 with
        sessions := pr.1.sessions ++ [session],
        activeSessionId := some sid },
     .ok (some sid))
  | .stop =>
    match st.activeSessionId with
    | none => (st, .err "No active session.")
    | some aid =>
      let st1 := updateSession st aid { emptyPatch with status := some "processing" }
      ({ st1 with activeSessionId := none }, .ok (some aid))
  | .processAudioMsg p env canOff dres analysis =>
    if p.sessionId = "" then (st, .err "Missing sessionId.")
    else (processSessionAudioJob st p env canOff dres analysis, .ok none)
  | .offscreenComplete sid result rerr => offscreenCompleteHandler st sid result rerr
  | .reportReady p => reportReadyHandler st p

/-- The empty `chrome.storage.local` of a fresh install. -/
def initStore : Store :=
  { sessions := [], activeSessionId := none, userProfile := none, audioBlobs := [] }

/-- Run a list of commands from a given store. -/
def execTrace (st : Store) : List Cmd → Store
  | [] => st
  | c :: rest => execTrace (step st c).1 rest

/-- The record-level effect of the popup's `patchSession` (config.js): it
additionally deletes the record's inline `audio_base64` field whenever the
patch carries one, uses strict (not truthy) checks on the patch value, and
backfills `has_audio` with `false` when it would be undefined (our records
always carry the field, so that backfill is the identity here). -/
def applyPopupPatch (s : Session) (p : SessionPatch) : Session :=
  let s1 :=
    match p.audio_base64 with
    | none => s
    | some v =>
      let s' := { s with audio_base64 := none }
      match v with
      | some a => if a ≠ "" then { s' with has_audio_flag := true } else s'
      | none => { s' with has_audio_flag := false }
  { s1 with
    status := Option.getD p.status s1.status,
    title := Option.getD p.title s1.title,
    session_report := Option.getD p.session_report s1.session_report,
    has_audio_flag := Option.getD p.has_audio_flag s1.has_audio_flag,
    audio_mime_type := Option.getD p.audio_mime_type s1.audio_mime_type }

/-- The blob-cache effect of the popup's `patchSession`: a non-empty string
persists, an explicit `null` clears, an empty string does neither. -/
def popupPatchBlobs (blobs : Blobs) (sid : String) (p : SessionPatch) : Blobs :=
  match p.audio_base64 with
  | none => blobs
  | some (some a) => if a ≠ "" then persistSessionAudioBlob blobs sid a else blobs
  | some none => clearSessionAudioBlob blobs sid

/-- `patchSession(id, patch)` (config.js). -/
def patchSessionPopup (st : Store) (sid : String) (p : SessionPatch) : Store :=
  match findSession st.sessions sid with
  | none => st
  | some _ =>
    { st with
      sessions := updateSessionList (fun s => applyPopupPatch s p) sid st.sessions,
      audioBlobs := popupPatchBlobs st.audioBlobs sid p }

/-- `fetchSessionAudioFromBackend(session)` (config.js): returns
`data?.audio_base64 || null`. -/
def fetchSessionAudioPopup (session : Session) (env : FetchAudioResult) : Option String :=
  if session.user_id = "" ∨ session.id = "" then none
  else
    match env with
    | .ok d => if isT d.audio_base64 then d.audio_base64 else none
    | .notOk => none
    | .netError => none

/-- `resolveSessionAudio(session)` (config.js): inline payload first (with
a persisting patch), then the local blob cache, then the remote fetch
(persisting and marking `has_audio` on success). -/
def resolveSessionAudioPopup (st : Store) (session : Session)
    (env : FetchAudioResult) : Store × Option String :=
  if isT session.audio_base64 then
    (patchSessionPopup st session.id
      { emptyPatch with audio_base64 := some session.audio_base64 },
     session.audio_base64)
  else
    match loadSessionAudioBlob st.audioBlobs session.id with
    | some cached => (st, some cached)
    | none =>
      match fetchSessionAudioPopup session env with
      | some dl =>
        let blobs := persistSessionAudioBlob st.audioBlobs session.id dl
        (patchSessionPopup { st with audioBlobs := blobs } session.id
          { emptyPatch with has_audio_flag := some true },
         some dl)
      | none => (st, none)

/-- The store-visible front half of `regenerateSession(sessionId)`
(config.js): look the session up, resolve its audio, and on success mark
it `processing` and build the `PROCESS_SESSION_AUDIO` payload to send; on
an unknown session or unresolvable audio only an alert is shown and no
payload is dispatched. -/
def regenerateSessionPopup (st : Store) (sid : String)
    (env : FetchAudioResult) : Store × Option JobPayload :=
  match findSession st.sessions sid with
  | none => (st, none)
  | some session =>
    let r := resolveSessionAudioPopup st session env
    match r.2 with
    | none => (r.1, none)
    | some a =>
      (patchSessionPopup r.1 sid { emptyPatch with status := some "processing" },
       some { sessionId := sid,
              audioBase64 := some a,
              mimeType := some (jsOrS session.audio_mime_type "audio/webm") })

/-- The per-collection body of `migrateLegacySessionAudio` (config.js):
each record with a truthy inline payload has the payload persisted to the
blob cache, `has_audio` set and the inline field nulled; the boolean
reports whether anything was modified. -/
def migrateCore : List Session → Blobs → List Session × Blobs × Bool
  | [], blobs => ([], blobs, false)
  | s :: rest, blobs =>
    if isT s.audio_base64 then
      let blobs1 := persistSessionAudioBlob blobs s.id (Option.getD s.audio_base64 "")
      let r := migrateCore rest blobs1
      ({ s with has_audio_flag := true, audio_base64 := none } :: r.1, r.2.1, true)
    else
      let r := migrateCore rest blobs
      (s :: r.1, r.2.1, r.2.2)

/-- `migrateLegacySessionAudio(sessions)` (config.js) including its
`legacyAudioMigrationDone` process-lifetime guard: returns the new guard
value, the resulting `sessions` collection (written back only when
modified) and the resulting blob cache. -/
def migrateLegacySessionAudioPass (migrationDone : Bool) (sessions : List Session)
    (blobs : Blobs) : Bool × List Session × Blobs :=
  if migrationDone then (migrationDone, sessions, blobs)
  else
    let r := migrateCore sessions blobs
    (true, if r.2.2 then r.1 else sessions, r.2.1)

/-- Observable actions of the popup's record-button capture pipeline. -/
inductive CaptureAction where
  | alertUser (message : String)
  | stopMediaTrack (source : String) (idx : Nat)
  | sendStopRecording
  | startRecorder
  | sendProcessSessionMsg (sessionId : String)
  | sendReportReady (sessionId : String)
deriving Repr, DecidableEq

/-- `stream.getTracks().forEach(t => t.stop())` for a stream with `n`
tracks. -/
def releaseTracks (source : String) (n : Nat) : List CaptureAction :=
  (List.range n).map (fun i => CaptureAction.stopMediaTrack source i)

/-- The mixing step of the record-button click handler (config.js): after
both acquisitions, a source contributes iff it yielded at least one audio
track; with no contributing source the handler alerts, releases every
acquired track of both streams, sends `STOP_RECORDING` and returns before
any recorder exists; otherwise the recorder is started. -/
def captureMixAndRecord (displayAudioTracks displayTotalTracks micAudioTracks
    micTotalTracks : Nat) : List CaptureAction :=
  let hasAudioTrack := decide (displayAudioTracks > 0) || decide (micAudioTracks > 0)
  if hasAudioTrack then
    [CaptureAction.startRecorder]
  else
    CaptureAction.alertUser "خطا: هیچ منبع صوتی در دسترس نیست." ::
      (releaseTracks "display" displayTotalTracks ++
       releaseTracks "microphone" micTotalTracks ++
       [CaptureAction.sendStopRecording])

/-- `recorder.onstop` (config.js): releases every track, then either
reports a zero-chunk or empty-blob capture error via
`SESSION_REPORT_READY`, or submits the encoded audio for analysis via
`PROCESS_SESSION_AUDIO`. -/
def recorderOnStop (sid : String) (displayTotalTracks micTotalTracks chunkCount
    blobBytes : Nat) : List CaptureAction :=
  releaseTracks "display" displayTotalTracks ++
  releaseTracks "microphone" micTotalTracks ++
  (if chunkCount = 0 then
    [CaptureAction.alertUser "خطا: هیچ صدایی ضبط نشد. لطفاً دوباره تلاش کنید.",
     CaptureAction.sendReportReady sid]
  else if blobBytes = 0 then
    [CaptureAction.alertUser "خطا: فایل صوتی خالی است.",
     CaptureAction.sendReportReady sid]
  else
    [CaptureAction.sendProcessSessionMsg sid])

/-- The full capture flow for one session: the mixing step, and the
recorder's stop callback only when a recorder was actually started. -/
def captureFlowTrace (displayAudioTracks displayTotalTracks micAudioTracks
    micTotalTracks : Nat) (sid : String) (chunkCount blobBytes : Nat) :
    List CaptureAction :=
  let t := captureMixAndRecord displayAudioTracks displayTotalTracks
    micAudioTracks micTotalTracks
  if CaptureAction.startRecorder ∈ t then
    t ++ recorderOnStop sid displayTotalTracks micTotalTracks chunkCount blobBytes
  else t

/-- Spec-side definition, following the words of §4.3 of the spec: "get
usable audio for session S" returns the first hit among (1) the inline
payload supplied by the caller, (2) the local cache entry, (3) the
remote fetch result; otherwise audio is unavailable (`none`).  Used only
to compare `ensureAudioForSession` against the spec's resolution order. -/
def specAudioResolution (inline cached fetched : Option String) : Option String :=
  if isT inline then inline
  else
    match cached with
    | some c => some c
    | none => if isT fetched then fetched else none

/-- The audio payload the remote service offers for a session, after the
code's own falsy-id guards. -/
def remoteOffer (session : Session) (env : FetchAudioResult) : Option String :=
  match fetchSessionAudioFromBackend session.user_id session.id env with
  | some d => d.audio_base64
  | none => none

/-- Whether an analyze-POST outcome is one of the failures named by the
spec's network-error taxonomy: a thrown network error / timeout, or a
completed response with a non-success status. -/
def analysisFails : AnalysisOutcome → Bool
  | .netFailure _ => true
  | .httpResponse respOk _ _ => !respOk

/-- The human-readable cause string the failure handling embeds in the
report for a failed analyze call, as computed by `requestBackendAnalysis`
and the `catch` of `processSessionAudioJob`. -/
def analysisCause : AnalysisOutcome → String
  | .netFailure msg => jsErrorText msg
  | .httpResponse _ statusCode data =>
    jsErrorText (jsOr data.error ("HTTP " ++ toString statusCode))

/-- The forward half of the spec's report invariant for one record: a
terminal status comes with a non-null report. -/
def reportInvariant (s : Session) : Prop :=
  s.status = "done" ∨ s.status = "failed" → s.session_report ≠ none

instance (s : Session) : Decidable (reportInvariant s) := by
  unfold reportInvariant; infer_instance

/-- The forward report invariant over a whole store. -/
def StoreInv (st : Store) : Prop :=
  ∀ s ∈ st.sessions, reportInvariant s

section Lemmas

theorem applyPatch_id (s : Session) (p : SessionPatch) : (applyPatch s p).id = s.id := by
  cases h : p.audio_base64 <;> simp [applyPatch, h]

theorem applyPatch_status (s : Session) (p : SessionPatch) :
    (applyPatch s p).status = Option.getD p.status s.status := by
  cases h : p.audio_base64 <;> simp [applyPatch, h]

theorem applyPatch_report (s : Session) (p : SessionPatch) :
    (applyPatch s p).session_report = Option.getD p.session_report s.session_report := by
  cases h : p.audio_base64 <;> simp [applyPatch, h]

theorem applyPatch_title (s : Session) (p : SessionPatch) :
    (applyPatch s p).title = Option.getD p.title s.title := by
  cases h : p.audio_base64 <;> simp [applyPatch, h]

theorem findSession_updateSessionList_self (f : Session → Session)
    (hf : ∀ s, (f s).id = s.id) (sid : String) (l : List Session) :
    findSession (updateSessionList f sid l) sid = Option.map f (findSession l sid) := by
  induction l with
  | nil => rfl
  | cons s rest ih =>
    by_cases h : s.id = sid
    · simp [updateSessionList, findSession, h, hf s]
    · simp [updateSessionList, findSession, h, ih]

theorem findSession_updateSession (st : Store) (sid : String) (p : SessionPatch) :
    findSession (updateSession st sid p).sessions sid
      = Option.map (fun s => applyPatch s p) (findSession st.sessions sid) := by
  cases h : findSession st.sessions sid with
  | none => simp [updateSession, h]
  | some s =>
    simp only [updateSession, h]
    rw [findSession_updateSessionList_self (fun s => applyPatch s p)
      (fun s => applyPatch_id s p) sid st.sessions, h]

theorem updateSession_activeSessionId (st : Store) (sid : String) (p : SessionPatch) :
    (updateSession st sid p).activeSessionId = st.activeSessionId := by
  cases h : findSession st.sessions sid <;> simp [updateSession, h]

theorem updateSession_blobs_of_none (st : Store) (sid : String) (p : SessionPatch)
    (h : p.audio_base64 = none) :
    (updateSession st sid p).audioBlobs = st.audioBlobs := by
  cases hf : findSession st.sessions sid <;> simp [updateSession, hf, patchBlobs, h]

theorem mem_updateSessionList (l : List Session) (f : Session → Session) (sid : String)
    (x : Session) (hx : x ∈ updateSessionList f sid l) :
    x ∈ l ∨ ∃ y, y ∈ l ∧ x = f y := by
  induction l with
  | nil => cases hx
  | cons s rest ih =>
    by_cases h : s.id = sid
    · simp only [updateSessionList, if_pos h, List.mem_cons] at hx
      rcases hx with rfl | hx
      · exact Or.inr ⟨s, List.mem_cons_self s rest, rfl⟩
      · exact Or.inl (List.mem_cons_of_mem s hx)
    · simp only [updateSessionList, if_neg h, List.mem_cons] at hx
      rcases hx with rfl | hx
      · exact Or.inl (List.mem_cons_self x rest)
      · rcases ih hx with h1 | ⟨y, hy, rfl⟩
        · exact Or.inl (List.mem_cons_of_mem s h1)
        · exact Or.inr ⟨y, List.mem_cons_of_mem s hy, rfl⟩

theorem storageGet_set_self (m : Blobs) (k v : String) :
    storageGet (storageSet m k v) k = some v := by
  induction m with
  | nil => simp [storageSet, storageGet]
  | cons kv rest ih =>
    by_cases h : kv.1 = k
    · cases kv; simp_all [storageSet, storageGet]
    · cases kv; simp_all [storageSet, storageGet]

end Lemmas

section InvariantLemmas

theorem reportInvariant_of_patch_report_some (p : SessionPatch) (msg : String)
    (hrep : p.session_report = some (some msg)) (y : Session) :
    reportInvariant (applyPatch y p) := by
  intro _
  rw [applyPatch_report, hrep]
  simp

theorem reportInvariant_of_patch_status_processing (p : SessionPatch)
    (hst : p.status = some "processing") (y : Session) :
    reportInvariant (applyPatch y p) := by
  intro hcase
  rw [applyPatch_status, hst] at hcase
  simp only [Option.getD_some] at hcase
  rcases hcase with h | h <;> exact absurd h (by decide)

theorem reportInvariant_of_patch_untouched (p : SessionPatch)
    (h1 : p.status = none) (h2 : p.session_report = none) (y : Session)
    (hy : reportInvariant y) : reportInvariant (applyPatch y p) := by
  intro hcase
  rw [applyPatch_report, h2]
  rw [applyPatch_status, h1] at hcase
  simp only [Option.getD_none] at hcase ⊢
  exact hy hcase

theorem storeInv_updateSession (st : Store) (sid : String) (p : SessionPatch)
    (hp : ∀ y, reportInvariant y → reportInvariant (applyPatch y p))
    (h : StoreInv st) : StoreInv (updateSession st sid p) := by
  unfold updateSession
  cases hf : findSession st.sessions sid with
  | none => exact h
  | some s0 =>
    intro s hs
    rcases mem_updateSessionList st.sessions (fun s => applyPatch s p) sid s hs with
      hmem | ⟨y, hy, rfl⟩
    · exact h s hmem
    · exact hp y (h y hy)

theorem getUserProfile_sessions (st : Store) (a b : String) :
    (getUserProfile st a b).1.sessions = st.sessions := by
  unfold getUserProfile
  cases st.userProfile with
  | none => rfl
  | some p => by_cases h : p.id ≠ "" ∧ p.name ≠ "" <;> simp [h]

theorem storeInv_ensure (st : Store) (session : Session)
    (pa mt : Option String) (env : FetchAudioResult) (h : StoreInv st) :
    StoreInv (ensureAudioForSession st session pa mt env).1 := by
  unfold ensureAudioForSession
  by_cases h1 : isT pa
  · simpa [h1] using h
  · simp only [h1, Bool.false_eq_true, if_false]
    cases h2 : loadSessionAudioBlob st.audioBlobs session.id with
    | some cached => exact h
    | none =>
      cases h3 : fetchSessionAudioFromBackend session.user_id session.id env with
      | none => exact h
      | some d =>
        by_cases h4 : isT d.audio_base64
        · simp only [h4, if_true]
          exact storeInv_updateSession _ _ _
            (fun y hy => reportInvariant_of_patch_untouched _ rfl rfl y hy) h
        · simpa [h4] using h

theorem storeInv_processJob (st : Store) (p : JobPayload) (env : FetchAudioResult)
    (canOff : Bool) (dres : Except String Unit) (analysis : AnalysisOutcome)
    (h : StoreInv st) :
    StoreInv (processSessionAudioJob st p env canOff dres analysis) := by
  unfold processSessionAudioJob
  cases hf : findSession st.sessions p.sessionId with
  | none => exact h
  | some session =>
    have hens := storeInv_ensure st session p.audioBase64 p.mimeType env h
    by_cases hready :
        isT (ensureAudioForSession st session p.audioBase64 p.mimeType env).2.1
    · simp only [hready, if_true]
      have hst2 := storeInv_updateSession
        (ensureAudioForSession st session p.audioBase64 p.mimeType env).1 p.sessionId
        { emptyPatch with
          status := some "processing",
          audio_base64 :=
            some (ensureAudioForSession st session p.audioBase64 p.mimeType env).2.1,
          audio_mime_type :=
            some (ensureAudioForSession st session p.audioBase64 p.mimeType env).2.2 }
        (fun y _ => reportInvariant_of_patch_status_processing _ rfl y) hens
      cases canOff with
      | true =>
        cases dres with
        | ok _ => simpa using hst2
        | error msg =>
          simp only
          exact storeInv_updateSession _ _ _
            (fun y _ => reportInvariant_of_patch_report_some _ _ rfl y) hst2
      | false =>
        cases hreq : requestBackendAnalysis analysis with
        | error msg =>
          simp only
          exact storeInv_updateSession _ _ _
            (fun y _ => reportInvariant_of_patch_report_some _ _ rfl y) hst2
        | ok data =>
          simp only
          exact storeInv_updateSession _ _ _
            (fun y _ => reportInvariant_of_patch_report_some _ _ rfl y) hst2
    · simp only [hready, Bool.false_eq_true, if_false]
      exact storeInv_updateSession _ _ _
        (fun y _ => reportInvariant_of_patch_report_some _ _ rfl y) hens

theorem reportReadyPatch_report (p : ReportReadyPayload) :
    (reportReadyPatch p).session_report = some (some (jsOr p.sessionReport "")) := by
  unfold reportReadyPatch
  cases p.hasAudio <;> cases p.audioBase64 <;> simp

theorem storeInv_step (st : Store) (c : Cmd) (h : StoreInv st) :
    StoreInv (step st c).1 := by
  cases c with
  | start pid pname sid createdAt =>
    intro s hs
    simp only [step, getUserProfile_sessions, List.mem_append, List.mem_singleton] at hs
    rcases hs with hmem | rfl
    · exact h s hmem
    · intro hcase
      rcases hcase with hcase | hcase <;>
        exact absurd hcase (by simp [newSessionMeta])
  | stop =>
    cases ha : st.activeSessionId with
    | none => simpa [step, ha] using h
    | some aid =>
      simp only [step, ha]
      exact storeInv_updateSession st aid { emptyPatch with status := some "processing" }
        (fun y _ => reportInvariant_of_patch_status_processing _ rfl y) h
  | processAudioMsg p env canOff dres analysis =>
    by_cases hempty : p.sessionId = ""
    · simpa [step, hempty] using h
    · simp only [step, hempty, if_neg, if_false]
      simpa [hempty] using storeInv_processJob st p env canOff dres analysis h
  | offscreenComplete sid result rerr =>
    unfold step offscreenCompleteHandler
    by_cases h1 : sid = ""
    · simpa [h1] using h
    · simp only [h1, if_false]
      by_cases h2 : isT rerr
      · simp only [h2, if_true]
        exact storeInv_updateSession _ _ _
          (fun y _ => reportInvariant_of_patch_report_some _ _ rfl y) h
      · simp only [h2, Bool.false_eq_true, if_false]
        exact storeInv_updateSession _ _ _
          (fun y _ => reportInvariant_of_patch_report_some _ _ rfl y) h
  | reportReady p =>
    unfold step reportReadyHandler
    by_cases h1 : p.sessionId = ""
    · simpa [h1] using h
    · simp only [h1, if_false]
      exact storeInv_updateSession _ _ _
        (fun y _ => reportInvariant_of_patch_report_some _ _ (reportReadyPatch_report p) y) h

theorem storeInv_execTrace (cs : List Cmd) :
    ∀ st : Store, StoreInv st → StoreInv (execTrace st cs) := by
  induction cs with
  | nil => intro st h; exact h
  | cons c rest ih => intro st h; exact ih (step st c).1 (storeInv_step st c h)

end InvariantLemmas

/-- C1 counterexample: from the fresh store, two sequential start commands
with no intervening stop leave the store with TWO sessions in status
`recording`, and the second start is answered `{ok, sessionId}` rather
than being rejected — refuting both the at-most-one-`recording` invariant
over handler-reachable states and the claimed rejection. -/
theorem doubleStart_two_recording_sessions :
    (((execTrace initStore
        [Cmd.start "u" "N" "s1" "t1", Cmd.start "u" "N" "s2" "t2"]).sessions.filter
          (fun s => s.status == "recording")).length = 2)
    ∧ (step (execTrace initStore [Cmd.start "u" "N" "s1" "t1"])
        (Cmd.start "u" "N" "s2" "t2")).2 = Resp.ok (some "s2") := by
  decide

/-- C1 (amended): the START_RECORDING handler never consults
`activeSessionId`: even when a session is already `recording`, a start
command succeeds with `{ok, sessionId}`, appends a fresh session in
status `recording`, and repoints `activeSessionId` at it (so the pointer
still names a `recording` session, but more than one `recording` session
can coexist). -/
theorem start_never_rejected (st : Store) (pid pname sid ts : String)
    (_h : ∃ s ∈ st.sessions, s.status = "recording") :
    (step st (Cmd.start pid pname sid ts)).2 = Resp.ok (some sid)
    ∧ (step st (Cmd.start pid pname sid ts)).1.sessions
        = st.sessions ++ [newSessionMeta (getUserProfile st pid pname).2 sid ts]
    ∧ (newSessionMeta (getUserProfile st pid pname).2 sid ts).status = "recording"
    ∧ (step st (Cmd.start pid pname sid ts)).1.activeSessionId = some sid := by
  refine ⟨rfl, ?_, rfl, rfl⟩
  simp [step, getUserProfile_sessions]

/-- Witness for `start_never_rejected` at a store already holding a
recording session. -/
theorem start_never_rejected_witness :
    (step (execTrace initStore [Cmd.start "u" "N" "s1" "t1"])
      (Cmd.start "u" "N" "s2" "t2")).1.activeSessionId = some "s2" :=
  (start_never_rejected (execTrace initStore [Cmd.start "u" "N" "s1" "t1"])
    "u" "N" "s2" "t2" (by decide)).2.2.2

/-- C2 (amended): over every store state reachable through the handlers,
the forward direction holds: a session in `done` or `failed` always has a
non-null `session_report`.  (The converse direction of the claimed
biconditional fails — see the counterexample.) -/
theorem terminal_status_implies_report (cs : List Cmd) (s : Session)
    (hmem : s ∈ (execTrace initStore cs).sessions)
    (hst : s.status = "done" ∨ s.status = "failed") :
    s.session_report ≠ none :=
  storeInv_execTrace cs initStore (by intro x hx; simp [initStore] at hx) s hmem hst

/-- Witness for `terminal_status_implies_report` on a concrete trace that
drives a session to `done`. -/
theorem terminal_status_implies_report_witness :
    ({ id := "s1", title := "T", created_at := "t0", status := "done",
       session_report := some "R", audio_base64 := none, user_id := "u",
       user_name := "N", has_audio_flag := false,
       audio_mime_type := "audio/webm" } : Session).session_report ≠ none :=
  terminal_status_implies_report
    [Cmd.start "u" "N" "s1" "t0", Cmd.stop,
     Cmd.reportReady
       { sessionId := "s1", title := some "T", sessionReport := some "R",
         status := some "ok", audioBase64 := none, hasAudio := none }]
    _ (by decide) (Or.inl rfl)

/-- C2 counterexample: the biconditional `status ∈ {done,failed} ⇔
session_report ≠ null` fails on a reachable state — a regenerate run via
`PROCESS_SESSION_AUDIO` re-enters `processing` while keeping the old
non-null report. -/
theorem regenerate_breaks_report_biconditional :
    ¬ (∀ s ∈ (execTrace initStore
        [Cmd.start "u" "N" "s1" "t0", Cmd.stop,
         Cmd.reportReady
           { sessionId := "s1", title := some "T", sessionReport := some "R",
             status := some "ok", audioBase64 := some (some "AUD"), hasAudio := none },
         Cmd.processAudioMsg
           { sessionId := "s1", audioBase64 := none, mimeType := none }
           FetchAudioResult.notOk true (Except.ok ())
           (AnalysisOutcome.netFailure "x")]).sessions,
        ((s.status = "done" ∨ s.status = "failed") ↔ s.session_report ≠ none)) := by
  decide

/-- C3 counterexample: a session in `done` with report "R", an empty blob
cache and a remote miss; the regenerate command the report page sends
(`PROCESS_SESSION_AUDIO` with no inline audio) is answered `{ok}` — not
rejected — and overwrites the session to `failed` with a fresh
explanatory report instead of leaving status and report untouched. -/
theorem regenerate_no_audio_marks_failed :
    (Option.map (fun s => (s.status, s.session_report))
      (findSession (execTrace initStore
        [Cmd.start "u" "N" "s1" "t0", Cmd.stop,
         Cmd.reportReady
           { sessionId := "s1", title := some "T", sessionReport := some "R",
             status := some "ok", audioBase64 := none, hasAudio := none }]).sessions "s1")
      = some ("done", some "R"))
    ∧ ((step (execTrace initStore
        [Cmd.start "u" "N" "s1" "t0", Cmd.stop,
         Cmd.reportReady
           { sessionId := "s1", title := some "T", sessionReport := some "R",
             status := some "ok", audioBase64 := none, hasAudio := none }])
        (Cmd.processAudioMsg
          { sessionId := "s1", audioBase64 := none, mimeType := none }
          FetchAudioResult.notOk true (Except.ok ())
          (AnalysisOutcome.netFailure "x"))).2 = Resp.ok none)
    ∧ (Option.map (fun s => (s.status, s.session_report))
        (findSession (step (execTrace initStore
          [Cmd.start "u" "N" "s1" "t0", Cmd.stop,
           Cmd.reportReady
             { sessionId := "s1", title := some "T", sessionReport := some "R",
               status := some "ok", audioBase64 := none, hasAudio := none }])
          (Cmd.processAudioMsg
            { sessionId := "s1", audioBase64 := none, mimeType := none }
            FetchAudioResult.notOk true (Except.ok ())
            (AnalysisOutcome.netFailure "x"))).1.sessions "s1")
        = some ("failed", some "فایل صوتی برای تحلیل موجود نیست.")) := by
  decide

/-- C3 (amended): only the popup's regenerate flow behaves as claimed: it
resolves audio before issuing any command, and when the session has no
truthy inline payload, the local cache misses and the remote fetch misses
or times out, it rejects with an alert, leaves the store (hence the
session's status and report) unchanged, and dispatches no analysis
payload.  The report page's path instead marks the session failed (see
the counterexample). -/
theorem popup_regenerate_no_audio_rejected (st : Store) (sid : String)
    (session : Session) (env : FetchAudioResult)
    (hfind : findSession st.sessions sid = some session)
    (hinline : isT session.audio_base64 = false)
    (hcache : loadSessionAudioBlob st.audioBlobs session.id = none)
    (hremote : fetchSessionAudioPopup session env = none) :
    regenerateSessionPopup st sid env = (st, none) := by
  unfold regenerateSessionPopup
  rw [hfind]
  unfold resolveSessionAudioPopup
  simp [hinline, hcache, hremote]

/-- Witness for `popup_regenerate_no_audio_rejected` on a concrete `done`
session with no cached audio and a remote miss. -/
theorem popup_regenerate_no_audio_rejected_witness :
    regenerateSessionPopup
      { sessions := [{ id := "s1", title := "T", created_at := "t0",
                       status := "done", session_report := some "R",
                       audio_base64 := none, user_id := "u", user_name := "N",
                       has_audio_flag := false, audio_mime_type := "audio/webm" }],
        activeSessionId := none, userProfile := none, audioBlobs := [] }
      "s1" FetchAudioResult.notOk
      = ({ sessions := [{ id := "s1", title := "T", created_at := "t0",
                          status := "done", session_report := some "R",
                          audio_base64 := none, user_id := "u", user_name := "N",
                          has_audio_flag := false, audio_mime_type := "audio/webm" }],
           activeSessionId := none, userProfile := none, audioBlobs := [] }, none) :=
  popup_regenerate_no_audio_rejected _ "s1" _ _ rfl rfl rfl rfl

/-- C6: a stop command succeeds exactly when the active-session pointer is
set: with no active session it answers an error and leaves the store
untouched; with an active session (present in the collection, as every
handler-created pointer is) it sets that session's status to
`processing`, clears the pointer, answers the stopped session's id, and
touches no audio blobs. -/
theorem stop_command_spec (st : Store) :
    (st.activeSessionId = none → step st Cmd.stop = (st, Resp.err "No active session."))
    ∧ (∀ aid session, st.activeSessionId = some aid →
        findSession st.sessions aid = some session →
        (step st Cmd.stop).2 = Resp.ok (some aid)
        ∧ (step st Cmd.stop).1.activeSessionId = none
        ∧ findSession (step st Cmd.stop).1.sessions aid
            = some { session with status := "processing" }
        ∧ (step st Cmd.stop).1.audioBlobs = st.audioBlobs) := by
  constructor
  · intro h
    simp [step, h]
  · intro aid session ha hf
    have hsess : (step st Cmd.stop).1.sessions
        = (updateSession st aid { emptyPatch with status := some "processing" }).sessions := by
      simp [step, ha]
    have hblob : (step st Cmd.stop).1.audioBlobs
        = (updateSession st aid { emptyPatch with status := some "processing" }).audioBlobs := by
      simp [step, ha]
    refine ⟨by simp [step, ha], by simp [step, ha], ?_, ?_⟩
    · rw [hsess, findSession_updateSession, hf]
      rfl
    · rw [hblob]
      exact updateSession_blobs_of_none st aid _ rfl

/-- Witness for `stop_command_spec` at a store holding one active
recording session. -/
theorem stop_command_spec_witness :
    (step { sessions := [newSessionMeta { id := "u", name := "N" } "s1" "t0"],
            activeSessionId := some "s1",
            userProfile := some { id := "u", name := "N" },
            audioBlobs := [] } Cmd.stop).2 = Resp.ok (some "s1") :=
  ((stop_command_spec _).2 "s1" (newSessionMeta { id := "u", name := "N" } "s1" "t0")
    rfl (by decide)).1

theorem jsErrorText_of_ne (x : String) (h : x ≠ "") : jsErrorText x = x := by
  simp [jsErrorText, jsOrS, h]

theorem http_msg_ne_empty (code : Nat) : "HTTP " ++ toString code ≠ "" := by
  intro h
  have h5 : ("HTTP " ++ toString code).length = 0 := by rw [h]; rfl
  rw [String.length_append] at h5
  have h6 : ("HTTP " : String).length = 5 := rfl
  omega

theorem jsOr_http_ne_empty (e : Option String) (code : Nat) :
    jsOr e ("HTTP " ++ toString code) ≠ "" := by
  cases e with
  | none => exact http_msg_ne_empty code
  | some s =>
    by_cases hs : s = ""
    · simpa [jsOr, jsOrS, hs] using http_msg_ne_empty code
    · simp [jsOr, jsOrS, hs]

/-- C4: when the direct analyze call fails — thrown network error/timeout
or a non-success HTTP response — the session ends in `failed` with the
human-readable cause embedded in `session_report`: the wrapped
`error.message`, which on a non-success HTTP status is the
service-provided `error` detail when present and otherwise the generic
`"HTTP <status>"` message.  The handler is a total function of its
environment, so no failure escapes it. -/
theorem network_failure_terminates_failed (st : Store) (sid : String)
    (session : Session) (audioB64 : String) (mt : Option String)
    (env : FetchAudioResult) (analysis : AnalysisOutcome) (st' : Store)
    (hfind : findSession st.sessions sid = some session)
    (haudio : audioB64 ≠ "")
    (hfail : analysisFails analysis = true)
    (hst' : st' = processSessionAudioJob st
      { sessionId := sid, audioBase64 := some audioB64, mimeType := mt }
      env false (Except.ok ()) analysis) :
    Option.map Session.status (findSession st'.sessions sid) = some "failed"
    ∧ Option.map Session.session_report (findSession st'.sessions sid)
        = some (some ("خطا در تحلیل جلسه: " ++ analysisCause analysis))
    ∧ (∀ respOk code data, analysis = AnalysisOutcome.httpResponse respOk code data →
        analysisCause analysis = jsOr data.error ("HTTP " ++ toString code)) := by
  have hready : isT (some audioB64) = true := by simp [isT, haudio]
  have hens : ensureAudioForSession st session (some audioB64) mt env
      = (st, some audioB64, jsOr mt (jsOrS session.audio_mime_type "audio/webm")) := by
    unfold ensureAudioForSession
    simp [hready]
  have hshape : st' = updateSession
      (updateSession st sid
        { emptyPatch with
          status := some "processing",
          audio_base64 := some (some audioB64),
          audio_mime_type :=
            some (jsOr mt (jsOrS session.audio_mime_type "audio/webm")) })
      sid
      { emptyPatch with
        status := some "failed",
        session_report :=
          some (some ("خطا در تحلیل جلسه: " ++ analysisCause analysis)) } := by
    rw [hst']
    unfold processSessionAudioJob
    rw [hfind]
    simp only [hens, hready, if_true]
    cases analysis with
    | netFailure msg => simp [requestBackendAnalysis, analysisCause]
    | httpResponse respOk code data =>
      have hok : respOk = false := by
        simpa [analysisFails] using hfail
      subst hok
      simp [requestBackendAnalysis, analysisCause]
  refine ⟨?_, ?_, ?_⟩
  · rw [hshape, findSession_updateSession, findSession_updateSession, hfind]
    simp [applyPatch_status]
  · rw [hshape, findSession_updateSession, findSession_updateSession, hfind]
    simp [applyPatch_report]
  · intro respOk code data heq
    subst heq
    exact jsErrorText_of_ne _ (jsOr_http_ne_empty data.error code)

/-- Witness for `network_failure_terminates_failed`: a concrete timeout on
the analyze call for a one-session store. -/
theorem network_failure_terminates_failed_witness :
    Option.map Session.status
      (findSession (processSessionAudioJob
        { sessions := [newSessionMeta { id := "u", name := "N" } "s1" "t0"],
          activeSessionId := none, userProfile := some { id := "u", name := "N" },
          audioBlobs := [] }
        { sessionId := "s1", audioBase64 := some "AUD", mimeType := none }
        FetchAudioResult.notOk false (Except.ok ())
        (AnalysisOutcome.netFailure "timeout")).sessions "s1") = some "failed" :=
  (network_failure_terminates_failed
    { sessions := [newSessionMeta { id := "u", name := "N" } "s1" "t0"],
      activeSessionId := none, userProfile := some { id := "u", name := "N" },
      audioBlobs := [] }
    "s1" (newSessionMeta { id := "u", name := "N" } "s1" "t0")
    "AUD" none FetchAudioResult.notOk (AnalysisOutcome.netFailure "timeout") _
    rfl (by decide) rfl rfl).1

theorem ensure_spec_order (st : Store) (session : Session) (provided mt : Option String)
    (env : FetchAudioResult) :
    (ensureAudioForSession st session provided mt env).2.1
      = specAudioResolution provided (loadSessionAudioBlob st.audioBlobs session.id)
          (remoteOffer session env) := by
  unfold ensureAudioForSession specAudioResolution remoteOffer
  by_cases hp : isT provided
  · simp [hp]
  · simp only [hp, Bool.false_eq_true, if_false]
    cases hload : loadSessionAudioBlob st.audioBlobs session.id with
    | some c => simp
    | none =>
      cases hfetch : fetchSessionAudioFromBackend session.user_id session.id env with
      | none => simp [isT]
      | some d =>
        by_cases hd : isT d.audio_base64
        · simp [hd]
        · simp [hd]

theorem ensure_inline_frame (st : Store) (session : Session) (provided mt : Option String)
    (env : FetchAudioResult) (hp : isT provided = true) :
    (ensureAudioForSession st session provided mt env).1 = st := by
  unfold ensureAudioForSession
  simp [hp]

theorem ensure_cached_frame (st : Store) (session : Session) (provided mt : Option String)
    (env : FetchAudioResult) (c : String) (hp : isT provided = false)
    (hload : loadSessionAudioBlob st.audioBlobs session.id = some c) :
    (ensureAudioForSession st session provided mt env).1 = st
    ∧ (ensureAudioForSession st session provided mt env).2.1 = some c := by
  unfold ensureAudioForSession
  simp [hp, hload]

theorem ensure_unavailable_frame (st : Store) (session : Session)
    (provided mt : Option String) (env : FetchAudioResult)
    (hp : isT provided = false)
    (hload : loadSessionAudioBlob st.audioBlobs session.id = none)
    (hr : isT (remoteOffer session env) = false) :
    (ensureAudioForSession st session provided mt env).1 = st
    ∧ (ensureAudioForSession st session provided mt env).2.1 = none := by
  unfold ensureAudioForSession
  cases hfetch : fetchSessionAudioFromBackend session.user_id session.id env with
  | none => simp [hp, hload, hfetch]
  | some d =>
    have hd : isT d.audio_base64 = false := by
      simpa [remoteOffer, hfetch] using hr
    simp [hp, hload, hfetch, hd]

theorem updateSession_blobs_found (st : Store) (sid : String) (p : SessionPatch)
    (s : Session) (h : findSession st.sessions sid = some s) :
    (updateSession st sid p).audioBlobs = patchBlobs st.audioBlobs sid p := by
  unfold updateSession
  rw [h]

theorem ensure_remote_persists (st : Store) (session : Session)
    (provided mt : Option String) (env : FetchAudioResult)
    (hp : isT provided = false)
    (hload : loadSessionAudioBlob st.audioBlobs session.id = none)
    (hr : isT (remoteOffer session env) = true) :
    storageGet (ensureAudioForSession st session provided mt env).1.audioBlobs
        (audioKeyOf session.id) = remoteOffer session env
    ∧ (findSession st.sessions session.id = some session →
        Option.map Session.has_audio_flag
          (findSession (ensureAudioForSession st session provided mt env).1.sessions
            session.id) = some true) := by
  cases hfetch : fetchSessionAudioFromBackend session.user_id session.id env with
  | none =>
    rw [remoteOffer, hfetch] at hr
    simp [isT] at hr
  | some d =>
    have hoffer : remoteOffer session env = d.audio_base64 := by
      rw [remoteOffer, hfetch]
    have hd : isT d.audio_base64 = true := by rw [hoffer] at hr; exact hr
    obtain ⟨x, hx⟩ : ∃ x, d.audio_base64 = some x := by
      cases hdb : d.audio_base64 with
      | none => rw [hdb] at hd; simp [isT] at hd
      | some x => exact ⟨x, rfl⟩
    have hxne : x ≠ "" := by
      rw [hx] at hd
      simpa [isT] using hd
    have hid : session.id ≠ "" := by
      intro hid0
      have hf0 : fetchSessionAudioFromBackend session.user_id session.id env = none := by
        unfold fetchSessionAudioFromBackend
        rw [if_pos (Or.inr hid0)]
      rw [hf0] at hfetch
      cases hfetch
    have hens1 : (ensureAudioForSession st session provided mt env).1
        = updateSession { st with audioBlobs := persistSessionAudioBlob st.audioBlobs session.id (Option.getD d.audio_base64 "") } session.id { emptyPatch with has_audio_flag := some true, audio_mime_type := some (jsOr d.mime_type "audio/webm") } := by
      unfold ensureAudioForSession
      simp [hp, hload, hfetch, hd]
    have hpersist : persistSessionAudioBlob st.audioBlobs session.id
        (Option.getD d.audio_base64 "")
        = storageSet st.audioBlobs (audioKeyOf session.id) x := by
      rw [hx]
      unfold persistSessionAudioBlob
      rw [if_neg (by simp [hid, hxne])]
      rfl
    constructor
    · rw [hens1, updateSession_blobs_of_none _ _ _ rfl]
      show storageGet (persistSessionAudioBlob st.audioBlobs session.id
        (Option.getD d.audio_base64 "")) (audioKeyOf session.id) = remoteOffer session env
      rw [hpersist, storageGet_set_self, hoffer, hx]
    · intro hfind
      rw [hens1, findSession_updateSession]
      show Option.map Session.has_audio_flag
        (Option.map (fun s => applyPatch s _) (findSession st.sessions session.id)) = some true
      rw [hfind]
      rfl

theorem job_persists_inline (st : Store) (session : Session) (a : String)
    (mt : Option String) (env : FetchAudioResult)
    (ha : a ≠ "") (hid : session.id ≠ "")
    (hfind : findSession st.sessions session.id = some session)
    (canOff : Bool) (dres : Except String Unit) (analysis : AnalysisOutcome) :
    storageGet (processSessionAudioJob st
        { sessionId := session.id, audioBase64 := some a, mimeType := mt }
        env canOff dres analysis).audioBlobs (audioKeyOf session.id) = some a := by
  have hready : isT (some a) = true := by simp [isT, ha]
  have hens : ensureAudioForSession st session (some a) mt env
      = (st, some a, jsOr mt (jsOrS session.audio_mime_type "audio/webm")) := by
    unfold ensureAudioForSession
    simp [hready]
  have hblob2 : (updateSession st session.id
      { emptyPatch with
        status := some "processing",
        audio_base64 := some (some a),
        audio_mime_type :=
          some (jsOr mt (jsOrS session.audio_mime_type "audio/webm")) }).audioBlobs
      = storageSet st.audioBlobs (audioKeyOf session.id) a := by
    rw [updateSession_blobs_found st session.id _ session hfind]
    show patchBlobs st.audioBlobs session.id _ = _
    rw [patchBlobs]
    simp only [hready, if_true]
    unfold persistSessionAudioBlob
    rw [if_neg (by simp [hid, ha])]
    rfl
  have hnoneF : ∀ (st2 : Store) (msg : String),
      (updateSession st2 session.id
        { emptyPatch with
          status := some "failed",
          session_report :=
            some (some ("خطا در تحلیل جلسه: " ++ jsErrorText msg)) }).audioBlobs
        = st2.audioBlobs :=
    fun st2 msg => updateSession_blobs_of_none _ _ _ rfl
  have hnoneD : ∀ (st2 : Store) (msg : String),
      (updateSession st2 session.id
        { emptyPatch with
          status := some "failed",
          session_report :=
            some (some ("خطا در آغاز تحلیل: " ++ jsErrorText msg)) }).audioBlobs
        = st2.audioBlobs :=
    fun st2 msg => updateSession_blobs_of_none _ _ _ rfl
  have hnoneOk : ∀ (st2 : Store) (data : BackendData),
      (updateSession st2 session.id
        { emptyPatch with
          status := some (if decide (data.status = some "error") then "failed" else "done"),
          title := some (jsOr data.title (jsOrS session.title "Session Report")),
          session_report :=
            some (some (jsOr data.session_report
              (jsOr data.error
                (if decide (data.status = some "error") then "مدل خروجی معتبر ارسال نکرد."
                 else "")))) }).audioBlobs
        = st2.audioBlobs :=
    fun st2 data => updateSession_blobs_of_none _ _ _ rfl
  have hfinal : (processSessionAudioJob st
      { sessionId := session.id, audioBase64 := some a, mimeType := mt }
      env canOff dres analysis).audioBlobs
      = storageSet st.audioBlobs (audioKeyOf session.id) a := by
    unfold processSessionAudioJob
    cases canOff with
    | true =>
      cases dres with
      | ok u => simp [hfind, hens, hready, hblob2]
      | error msg => simp [hfind, hens, hready, hnoneD, hblob2]
    | false =>
      cases hreq : requestBackendAnalysis analysis with
      | error msg => simp [hfind, hens, hready, hreq, hnoneF, hblob2]
      | ok data =>
        simp only [hfind, hens, hready, hreq, if_true, Bool.false_eq_true, if_false]
        rw [hnoneOk]
        exact hblob2
  rw [hfinal]
  exact storageGet_set_self _ _ _

/-- C5: `ensureAudioForSession` resolves audio in exactly the spec's order
(inline payload, then local cache, then bounded remote fetch), returning
the first hit: an inline payload is used as-is (and is persisted by the
enclosing `processSessionAudioJob`, which always writes the resolved
audio through `updateSession`); a cache hit is returned with no store
change; a remote hit is persisted to the local cache and the session is
marked `has_audio = true`; a remote miss or timeout yields "unavailable"
(`none`) with no store change. -/
theorem audio_resolution_order (st : Store) (session : Session)
    (provided mt : Option String) (env : FetchAudioResult) :
    (ensureAudioForSession st session provided mt env).2.1
      = specAudioResolution provided (loadSessionAudioBlob st.audioBlobs session.id)
          (remoteOffer session env)
    ∧ (isT provided = true → (ensureAudioForSession st session provided mt env).1 = st)
    ∧ (isT provided = false →
        ∀ c, loadSessionAudioBlob st.audioBlobs session.id = some c →
          (ensureAudioForSession st session provided mt env).1 = st
          ∧ (ensureAudioForSession st session provided mt env).2.1 = some c)
    ∧ (isT provided = false →
        loadSessionAudioBlob st.audioBlobs session.id = none →
        isT (remoteOffer session env) = true →
        storageGet (ensureAudioForSession st session provided mt env).1.audioBlobs
            (audioKeyOf session.id) = remoteOffer session env
        ∧ (findSession st.sessions session.id = some session →
            Option.map Session.has_audio_flag
              (findSession (ensureAudioForSession st session provided mt env).1.sessions
                session.id) = some true))
    ∧ (isT provided = false →
        loadSessionAudioBlob st.audioBlobs session.id = none →
        isT (remoteOffer session env) = false →
        (ensureAudioForSession st session provided mt env).1 = st
        ∧ (ensureAudioForSession st session provided mt env).2.1 = none)
    ∧ (∀ a, provided = some a → a ≠ "" → session.id ≠ "" →
        findSession st.sessions session.id = some session →
        ∀ canOff dres analysis,
          storageGet (processSessionAudioJob st
              { sessionId := session.id, audioBase64 := provided, mimeType := mt }
              env canOff dres analysis).audioBlobs (audioKeyOf session.id) = some a) :=
  ⟨ensure_spec_order st session provided mt env,
   fun hp => ensure_inline_frame st session provided mt env hp,
   fun hp c hload => ensure_cached_frame st session provided mt env c hp hload,
   fun hp hload hr => ensure_remote_persists st session provided mt env hp hload hr,
   fun hp hload hr => ensure_unavailable_frame st session provided mt env hp hload hr,
   fun a hpa ha hid hfind canOff dres analysis => by
     subst hpa
     exact job_persists_inline st session a mt env ha hid hfind canOff dres analysis⟩

/-- Witness for `audio_resolution_order`: a concrete remote hit is written
to the local blob cache. -/
theorem audio_resolution_order_witness :
    storageGet (ensureAudioForSession
        { sessions := [{ id := "s1", title := "T", created_at := "t0",
                         status := "done", session_report := some "R",
                         audio_base64 := none, user_id := "u", user_name := "N",
                         has_audio_flag := false, audio_mime_type := "audio/webm" }],
          activeSessionId := none, userProfile := none, audioBlobs := [] }
        { id := "s1", title := "T", created_at := "t0", status := "done",
          session_report := some "R", audio_base64 := none, user_id := "u",
          user_name := "N", has_audio_flag := false, audio_mime_type := "audio/webm" }
        none none
        (FetchAudioResult.ok { audio_base64 := some "AUD", mime_type := some "audio/webm" })).1.audioBlobs
      (audioKeyOf "s1")
      = remoteOffer
        { id := "s1", title := "T", created_at := "t0", status := "done",
          session_report := some "R", audio_base64 := none, user_id := "u",
          user_name := "N", has_audio_flag := false, audio_mime_type := "audio/webm" }
        (FetchAudioResult.ok { audio_base64 := some "AUD", mime_type := some "audio/webm" }) :=
  ((audio_resolution_order
    { sessions := [{ id := "s1", title := "T", created_at := "t0",
                     status := "done", session_report := some "R",
                     audio_base64 := none, user_id := "u", user_name := "N",
                     has_audio_flag := false, audio_mime_type := "audio/webm" }],
      activeSessionId := none, userProfile := none, audioBlobs := [] }
    { id := "s1", title := "T", created_at := "t0", status := "done",
      session_report := some "R", audio_base64 := none, user_id := "u",
      user_name := "N", has_audio_flag := false, audio_mime_type := "audio/webm" }
    none none
    (FetchAudioResult.ok { audio_base64 := some "AUD", mime_type := some "audio/webm" })).2.2.2.1
    rfl rfl (by decide)).1

theorem migrateCore_no_inline : ∀ (l : List Session) (b : Blobs),
    ∀ x ∈ (migrateCore l b).1, isT x.audio_base64 = false := by
  intro l
  induction l with
  | nil =>
    intro b x hx
    simp [migrateCore] at hx
  | cons s rest ih =>
    intro b x hx
    cases h : isT s.audio_base64 with
    | true =>
      simp only [migrateCore, h, if_true, List.mem_cons] at hx
      rcases hx with rfl | hx2
      · simp [isT]
      · exact ih _ x hx2
    | false =>
      simp only [migrateCore, h, Bool.false_eq_true, if_false, List.mem_cons] at hx
      rcases hx with rfl | hx2
      · exact h
      · exact ih _ x hx2

theorem migrateCore_fixed : ∀ (l : List Session) (b : Blobs),
    (∀ x ∈ l, isT x.audio_base64 = false) → migrateCore l b = (l, b, false) := by
  intro l
  induction l with
  | nil => intro b _; rfl
  | cons s rest ih =>
    intro b h
    have hs := h s (List.mem_cons_self s rest)
    simp only [migrateCore, hs, Bool.false_eq_true, if_false]
    rw [ih b (fun x hx => h x (List.mem_cons_of_mem s hx))]

/-- C7: the legacy-audio migration is idempotent: once completed in a
process lifetime (`legacyAudioMigrationDone = true`) it is the identity;
the first run sets the flag; running the pass on its own output changes
nothing; and even the bare collection transform is idempotent — a second
`migrateCore` pass finds no inline payload and modifies nothing. -/
theorem legacy_migration_idempotent (sessions : List Session) (blobs : Blobs) :
    migrateLegacySessionAudioPass true sessions blobs = (true, sessions, blobs)
    ∧ (migrateLegacySessionAudioPass false sessions blobs).1 = true
    ∧ migrateLegacySessionAudioPass
        (migrateLegacySessionAudioPass false sessions blobs).1
        (migrateLegacySessionAudioPass false sessions blobs).2.1
        (migrateLegacySessionAudioPass false sessions blobs).2.2
        = migrateLegacySessionAudioPass false sessions blobs
    ∧ migrateCore (migrateCore sessions blobs).1 (migrateCore sessions blobs).2.1
        = ((migrateCore sessions blobs).1, (migrateCore sessions blobs).2.1, false) := by
  have htrue : ∀ (x : List Session) (y : Blobs),
      migrateLegacySessionAudioPass true x y = (true, x, y) := by
    intro x y
    simp [migrateLegacySessionAudioPass]
  have hflag : (migrateLegacySessionAudioPass false sessions blobs).1 = true := by
    simp [migrateLegacySessionAudioPass]
  refine ⟨htrue sessions blobs, hflag, ?_, ?_⟩
  · rw [hflag, htrue, ← hflag]
  · exact migrateCore_fixed _ _ (migrateCore_no_inline sessions blobs)

/-- C8: persisting an audio blob for a session and then reading it back
through the local-cache step returns exactly the persisted payload. -/
theorem audio_blob_roundtrip (blobs : Blobs) (sid audioB64 : String)
    (hsid : sid ≠ "") (ha : audioB64 ≠ "") :
    loadSessionAudioBlob (persistSessionAudioBlob blobs sid audioB64) sid
      = some audioB64 := by
  unfold persistSessionAudioBlob
  rw [if_neg (by simp [hsid, ha])]
  unfold loadSessionAudioBlob
  rw [if_neg hsid, storageGet_set_self]
  simp [ha]

/-- Witness for `audio_blob_roundtrip` at a concrete id and payload. -/
theorem audio_blob_roundtrip_witness :
    loadSessionAudioBlob (persistSessionAudioBlob [] "s1" "AUD") "s1" = some "AUD" :=
  audio_blob_roundtrip [] "s1" "AUD" (by decide) (by decide)

/-- C9: when neither the display source nor the microphone yields an audio
track, the capture flow begins with the user-facing error (so the abort
precedes the STOP command, the only action that moves the session past
`recording`), releases every acquired track of both streams, sends no
`PROCESS_SESSION_AUDIO` submission for the session, and never starts the
recorder. -/
theorem capture_no_audio_aborts (dTot mTot chunkCount blobBytes : Nat) (sid : String) :
    (captureFlowTrace 0 dTot 0 mTot sid chunkCount blobBytes).head?
        = some (CaptureAction.alertUser "خطا: هیچ منبع صوتی در دسترس نیست.")
    ∧ CaptureAction.sendStopRecording
        ∈ captureFlowTrace 0 dTot 0 mTot sid chunkCount blobBytes
    ∧ (∀ i, i < dTot → CaptureAction.stopMediaTrack "display" i
        ∈ captureFlowTrace 0 dTot 0 mTot sid chunkCount blobBytes)
    ∧ (∀ i, i < mTot → CaptureAction.stopMediaTrack "microphone" i
        ∈ captureFlowTrace 0 dTot 0 mTot sid chunkCount blobBytes)
    ∧ (∀ x, CaptureAction.sendProcessSessionMsg x
        ∉ captureFlowTrace 0 dTot 0 mTot sid chunkCount blobBytes)
    ∧ CaptureAction.startRecorder
        ∉ captureFlowTrace 0 dTot 0 mTot sid chunkCount blobBytes := by
  have hmix : captureMixAndRecord 0 dTot 0 mTot
      = CaptureAction.alertUser "خطا: هیچ منبع صوتی در دسترس نیست." ::
          (releaseTracks "display" dTot ++ releaseTracks "microphone" mTot ++
           [CaptureAction.sendStopRecording]) := by
    simp [captureMixAndRecord]
  have hns : CaptureAction.startRecorder ∉ captureMixAndRecord 0 dTot 0 mTot := by
    rw [hmix]
    simp [releaseTracks]
  have hflow : captureFlowTrace 0 dTot 0 mTot sid chunkCount blobBytes
      = captureMixAndRecord 0 dTot 0 mTot := by
    unfold captureFlowTrace
    rw [if_neg hns]
  refine ⟨?_, ?_, ?_, ?_, ?_, ?_⟩
  · rw [hflow, hmix]
    rfl
  · rw [hflow, hmix]
    simp
  · intro i hi
    rw [hflow, hmix]
    refine List.mem_cons_of_mem _ (List.mem_append_left _ (List.mem_append_left _ ?_))
    unfold releaseTracks
    exact List.mem_map.mpr ⟨i, List.mem_range.mpr hi, rfl⟩
  · intro i hi
    rw [hflow, hmix]
    refine List.mem_cons_of_mem _ (List.mem_append_left _ (List.mem_append_right _ ?_))
    unfold releaseTracks
    exact List.mem_map.mpr ⟨i, List.mem_range.mpr hi, rfl⟩
  · intro x
    rw [hflow, hmix]
    simp [releaseTracks]
  · rw [hflow]
    exact hns

/-- Witness for `capture_no_audio_aborts` with one acquired track per
stream. -/
theorem capture_no_audio_aborts_witness :
    CaptureAction.stopMediaTrack "display" 0 ∈ captureFlowTrace 0 1 0 1 "s1" 0 0 :=
  (capture_no_audio_aborts 1 1 0 0 "s1").2.2.1 0 (by decide)

/-- C10: for a session id absent from the collection, the Coordinator's
record-level update is the identity on the whole store, and a
`PROCESS_SESSION_AUDIO` job naming that id returns without writing
anything. -/
theorem unknown_session_frame (st : Store) (sid : String)
    (h : findSession st.sessions sid = none) :
    (∀ p : SessionPatch, updateSession st sid p = st)
    ∧ (∀ (pay : JobPayload) (env : FetchAudioResult) (canOff : Bool)
        (dres : Except String Unit) (analysis : AnalysisOutcome),
        pay.sessionId = sid →
        processSessionAudioJob st pay env canOff dres analysis = st) := by
  constructor
  · intro p
    unfold updateSession
    rw [h]
  · intro pay env canOff dres analysis hpay
    unfold processSessionAudioJob
    rw [hpay, h]

/-- Witness for `unknown_session_frame` on a store holding one unrelated
session. -/
theorem unknown_session_frame_witness :
    updateSession
      { sessions := [newSessionMeta { id := "u", name := "N" } "s1" "t0"],
        activeSessionId := none, userProfile := none, audioBlobs := [] }
      "s2" emptyPatch
      = { sessions := [newSessionMeta { id := "u", name := "N" } "s1" "t0"],
          activeSessionId := none, userProfile := none, audioBlobs := [] } :=
  (unknown_session_frame
    { sessions := [newSessionMeta { id := "u", name := "N" } "s1" "t0"],
      activeSessionId := none, userProfile := none, audioBlobs := [] }
    "s2" (by decide)).1 emptyPatch

end BlueSessionAnalyzor
